import Mathlib

/-!
Verification of the Canvas gateway/aggregator (`src/main.py`) against its
specification.

The embedding models the dynamic (JSON-valued) Python payloads with the
`Json` inductive, Python's dict/iteration/truthiness operations as
`Except PyErr`-valued functions (an `Except.error` models an uncaught
Python exception), and the HTTP layer as an explicit transport oracle
`HttpRequest → HttpResult` (`HttpResult.ok body` = a success-status
response whose body parsed as JSON, `HttpResult.err msg` = any
`requests.exceptions.RequestException`: connection error, timeout, or
`raise_for_status` on a non-success status).  Every function that makes
HTTP calls additionally returns the list of requests it issued, in order,
so that claims about which calls are made can be stated.
-/

/-- Dynamic JSON-like values, modelling the untyped Python payloads.
Object keys are assumed unique (they come from parsed JSON dicts). -/
inductive Json where
  | null : Json
  | bool : Bool → Json
  | num : Int → Json
  | str : String → Json
  | arr : List Json → Json
  | obj : List (String × Json) → Json

mutual

/-- Structural equality of JSON values, modelling Python `==` on parsed
JSON data. -/
def Json.beq : Json → Json → Bool
  | Json.null, Json.null => true
  | Json.bool a, Json.bool b => a == b
  | Json.num a, Json.num b => a == b
  | Json.str a, Json.str b => a == b
  | Json.arr xs, Json.arr ys => beqJsonList xs ys
  | Json.obj fs, Json.obj gs => beqJsonFields fs gs
  | _, _ => false

/-- Elementwise equality of JSON lists. -/
def beqJsonList : List Json → List Json → Bool
  | [], [] => true
  | x :: xs, y :: ys => Json.beq x y && beqJsonList xs ys
  | _, _ => false

/-- Entrywise equality of JSON object fields. -/
def beqJsonFields : List (String × Json) → List (String × Json) → Bool
  | [], [] => true
  | (k, v) :: fs, (l, w) :: gs => k == l && Json.beq v w && beqJsonFields fs gs
  | _, _ => false

end

/-- Python exceptions that the modelled code can raise. -/
inductive PyErr where
  | keyError : String → PyErr
  | typeError : String → PyErr
  | attrError : String → PyErr
  | nameError : String → PyErr
deriving DecidableEq

/-- Association-list lookup, modelling Python dict lookup. -/
def lookupFields : List (String × Json) → String → Option Json
  | [], _ => none
  | (k, v) :: fs, key => if k = key then some v else lookupFields fs key

/-- Field lookup on a `Json` value: `some v` when the value is an object
carrying the key, `none` otherwise. -/
def Json.lookup : Json → String → Option Json
  | Json.obj fs, k => lookupFields fs k
  | _, _ => none

/-- Whether a `Json` value is an object (a Python dict). -/
def Json.isObj : Json → Bool
  | Json.obj _ => true
  | _ => false

/-- Substring test on character lists (Python `needle in haystack` for
strings). -/
def strInCharList (needle : List Char) : List Char → Bool
  | [] => needle.isEmpty
  | c :: rest => needle.isPrefixOf (c :: rest) || strInCharList needle rest

/-- Python `k in j` for a string `k`: key membership for dicts, element
membership for lists, substring test for strings, `TypeError` otherwise. -/
def Json.pyContains (j : Json) (k : String) : Except PyErr Bool :=
  match j with
  | Json.obj fs => Except.ok (lookupFields fs k).isSome
  | Json.arr xs => Except.ok (xs.any fun x => Json.beq x (Json.str k))
  | Json.str s => Except.ok (strInCharList k.data s.data)
  | _ => Except.error (PyErr.typeError "argument of type is not iterable")

/-- Python `j[k]` for a string key `k`: dict lookup raising `KeyError`
when absent, `TypeError` on non-dict values. -/
def Json.getItem (j : Json) (k : String) : Except PyErr Json :=
  match j with
  | Json.obj fs =>
    match lookupFields fs k with
    | some v => Except.ok v
    | none => Except.error (PyErr.keyError k)
  | Json.arr _ => Except.error (PyErr.typeError "list indices must be integers")
  | Json.str _ => Except.error (PyErr.typeError "string indices must be integers")
  | _ => Except.error (PyErr.typeError "object is not subscriptable")

/-- Python `j.get(k, dflt)`: defaulting dict lookup; `AttributeError` on
non-dict values. -/
def Json.dictGet (j : Json) (k : String) (dflt : Json) : Except PyErr Json :=
  match j with
  | Json.obj fs => Except.ok ((lookupFields fs k).getD dflt)
  | _ => Except.error (PyErr.attrError "object has no attribute get")

/-- Python truthiness of a JSON value. -/
def Json.truthy : Json → Bool
  | Json.null => false
  | Json.bool b => b
  | Json.num n => n != 0
  | Json.str s => s != ""
  | Json.arr xs => !xs.isEmpty
  | Json.obj fs => !fs.isEmpty

/-- Python `for x in j`: lists iterate their elements, dicts their keys,
strings their characters; other values raise `TypeError`. -/
def Json.iterList : Json → Except PyErr (List Json)
  | Json.arr xs => Except.ok xs
  | Json.obj fs => Except.ok (fs.map fun kv => Json.str kv.1)
  | Json.str s => Except.ok (s.data.map fun c => Json.str (String.singleton c))
  | _ => Except.error (PyErr.typeError "object is not iterable")

mutual

/-- Python `repr` of a JSON value (string escaping is not modelled). -/
def Json.pyRepr : Json → String
  | Json.null => "None"
  | Json.bool true => "True"
  | Json.bool false => "False"
  | Json.num n => toString n
  | Json.str s => "\x27" ++ s ++ "\x27"
  | Json.arr xs => "[" ++ pyReprList xs ++ "]"
  | Json.obj fs => "\x7b" ++ pyReprFields fs ++ "\x7d"

/-- Comma-separated `repr` of list elements. -/
def pyReprList : List Json → String
  | [] => ""
  | [x] => Json.pyRepr x
  | x :: y :: rest => Json.pyRepr x ++ ", " ++ pyReprList (y :: rest)

/-- Comma-separated `repr` of dict entries. -/
def pyReprFields : List (String × Json) → String
  | [] => ""
  | [(k, v)] => "\x27" ++ k ++ "\x27: " ++ Json.pyRepr v
  | (k, v) :: g :: rest =>
    "\x27" ++ k ++ "\x27: " ++ Json.pyRepr v ++ ", " ++ pyReprFields (g :: rest)

end

/-- Python `str` of a JSON value, as used by f-string interpolation. -/
def Json.pyStr : Json → String
  | Json.str s => s
  | j => Json.pyRepr j

/-- One HTTP request as issued by the `requests` library calls in
`canvas_request`: URL, the Authorization header value, the verb, the
query parameters (the `params=` argument) and the JSON body (the `json=`
argument). -/
structure HttpRequest where
  url : String
  authHeader : String
  method : String
  params : Option Json
  body : Option Json

/-- Outcome of one HTTP request, as observed by `canvas_request` after
`raise_for_status()` and `.json()`: either a parsed success body or a
`requests.exceptions.RequestException` message. -/
inductive HttpResult where
  | ok : Json → HttpResult
  | err : String → HttpResult

/-- The `CanvasResponse` pydantic model: the uniform result Envelope. -/
structure CanvasResponse where
  success : Bool
  data : Json
  error : Option String

/-- The Envelope `canvas_request` builds from a transport outcome:
`CanvasResponse(success=True, data=response.json())` on success (error
defaults to `None`), `CanvasResponse(success=False, data=None,
error=str(e))` on a caught `RequestException`. -/
def envelopeOf : HttpResult → CanvasResponse
  | HttpResult.ok body => { success := true, data := body, error := none }
  | HttpResult.err msg => { success := false, data := Json.null, error := some msg }

/-- The request `canvas_request` issues for a verb in
GET/POST/PUT/DELETE: `requests.get` passes `params=` but no body,
`requests.post`/`requests.put` pass `json=` but no params,
`requests.delete` passes neither. -/
def builtRequest (instituteUrl token endpoint method : String)
    (params data : Option Json) : HttpRequest :=
  { url := instituteUrl ++ "/api/v1/" ++ endpoint
    authHeader := "Bearer " ++ token
    method := method
    params := if method = "GET" then params else none
    body := if method = "POST" ∨ method = "PUT" then data else none }

/-- Embedding of `canvas_request` (src/main.py lines 24-41).  The
transport oracle stands for the `requests` library; the second component
of the result is the list of HTTP requests issued.  For a verb outside
GET/POST/PUT/DELETE no branch binds `response`, so
`response.raise_for_status()` raises an unbound-local `NameError` that
the `except requests.exceptions.RequestException` clause does not catch:
this is modelled by `Except.error` with an empty request list. -/
def canvas_request (transport : HttpRequest → HttpResult)
    (institute_url token endpoint method : String)
    (params data : Option Json) :
    Except PyErr CanvasResponse × List HttpRequest :=
  if method = "GET" then
    let req : HttpRequest :=
      { url := institute_url ++ "/api/v1/" ++ endpoint
        authHeader := "Bearer " ++ token
        method := "GET", params := params, body := none }
    (Except.ok (envelopeOf (transport req)), [req])
  else if method = "POST" then
    let req : HttpRequest :=
      { url := institute_url ++ "/api/v1/" ++ endpoint
        authHeader := "Bearer " ++ token
        method := "POST", params := none, body := data }
    (Except.ok (envelopeOf (transport req)), [req])
  else if method = "PUT" then
    let req : HttpRequest :=
      { url := institute_url ++ "/api/v1/" ++ endpoint
        authHeader := "Bearer " ++ token
        method := "PUT", params := none, body := data }
    (Except.ok (envelopeOf (transport req)), [req])
  else if method = "DELETE" then
    let req : HttpRequest :=
      { url := institute_url ++ "/api/v1/" ++ endpoint
        authHeader := "Bearer " ++ token
        method := "DELETE", params := none, body := none }
    (Except.ok (envelopeOf (transport req)), [req])
  else
    (Except.error (PyErr.nameError "response"), [])

/-- Embedding of the inner filter/projection of `get_missing_assignments`
(src/main.py lines 138-150) for one assignment: evaluate
`'submission' in assignment and assignment['submission'].get('missing', False)`
and, when truthy, build the record dict in source order; `some` = the
record was appended, `none` = the assignment was skipped. -/
def processAssignment (course a : Json) : Except PyErr (Option Json) :=
  match Json.pyContains a "submission" with
  | Except.error e => Except.error e
  | Except.ok hasSub =>
    if hasSub then
      match Json.getItem a "submission" with
      | Except.error e => Except.error e
      | Except.ok sub =>
        match Json.dictGet sub "missing" (Json.bool false) with
        | Except.error e => Except.error e
        | Except.ok miss =>
          if Json.truthy miss then
            match Json.getItem course "name" with
            | Except.error e => Except.error e
            | Except.ok cname =>
              match Json.getItem course "id" with
              | Except.error e => Except.error e
              | Except.ok cid =>
                match Json.getItem a "name" with
                | Except.error e => Except.error e
                | Except.ok aname =>
                  match Json.getItem a "id" with
                  | Except.error e => Except.error e
                  | Except.ok aid =>
                    match Json.dictGet a "due_at" Json.null with
                    | Except.error e => Except.error e
                    | Except.ok due =>
                      match Json.getItem a "points_possible" with
                      | Except.error e => Except.error e
                      | Except.ok pts =>
                        Except.ok (some (Json.obj [
                          ("course_name", cname),
                          ("course_id", cid),
                          ("assignment_name", aname),
                          ("assignment_id", aid),
                          ("due_date", due),
                          ("points_possible", pts)]))
          else Except.ok none
    else Except.ok none

/-- The `for assignment in assignments_response.data` loop of
`get_missing_assignments`: the records appended for one course's
assignment list, in order, or the first raised exception. -/
def processAssignments (course : Json) : List Json → Except PyErr (List Json)
  | [] => Except.ok []
  | a :: rest =>
    match processAssignment course a with
    | Except.error e => Except.error e
    | Except.ok entry =>
      match processAssignments course rest with
      | Except.error e => Except.error e
      | Except.ok recs =>
        Except.ok (match entry with
          | some r => r :: recs
          | none => recs)

/-- The `for course in courses_response.data` loop of
`get_missing_assignments` (src/main.py lines 125-150): per course,
evaluate `course['id']`, issue the per-course assignments call with
`params={"include": ["submission"]}`, skip the course when the call's
Envelope is a failure (`continue`), and otherwise iterate its data.
Returns the accumulated records (or first raised exception) together
with the HTTP requests issued. -/
def processCourses (transport : HttpRequest → HttpResult)
    (institute_url token : String) :
    List Json → Except PyErr (List Json) × List HttpRequest
  | [] => (Except.ok [], [])
  | course :: rest =>
    match Json.getItem course "id" with
    | Except.error e => (Except.error e, [])
    | Except.ok cid =>
      match canvas_request transport institute_url token
          ("courses/" ++ Json.pyStr cid ++ "/assignments") "GET"
          (some (Json.obj [("include", Json.arr [Json.str "submission"])])) none with
      | (Except.error e, t1) => (Except.error e, t1)
      | (Except.ok assignments_response, t1) =>
        if assignments_response.success then
          match Json.iterList assignments_response.data with
          | Except.error e => (Except.error e, t1)
          | Except.ok assigns =>
            match processAssignments course assigns with
            | Except.error e => (Except.error e, t1)
            | Except.ok recs =>
              match processCourses transport institute_url token rest with
              | (Except.error e, t2) => (Except.error e, t1 ++ t2)
              | (Except.ok more, t2) => (Except.ok (recs ++ more), t1 ++ t2)
        else
          match processCourses transport institute_url token rest with
          | (res2, t2) => (res2, t1 ++ t2)

/-- Embedding of `get_missing_assignments` (src/main.py lines 106-152):
call the Gateway for the active course list, return its Envelope
unchanged when it is a failure, otherwise run the per-course loop and
wrap the accumulated records in a success Envelope.  The second
component is the list of HTTP requests issued, in order. -/
def get_missing_assignments (transport : HttpRequest → HttpResult)
    (institute_url token : String) :
    Except PyErr CanvasResponse × List HttpRequest :=
  match canvas_request transport institute_url token "courses" "GET"
      (some (Json.obj [("enrollment_state", Json.str "active")])) none with
  | (Except.error e, t0) => (Except.error e, t0)
  | (Except.ok courses_response, t0) =>
    if courses_response.success then
      match Json.iterList courses_response.data with
      | Except.error e => (Except.error e, t0)
      | Except.ok courses =>
        match processCourses transport institute_url token courses with
        | (Except.error e, t1) => (Except.error e, t0 ++ t1)
        | (Except.ok recs, t1) =>
          (Except.ok { success := true, data := Json.arr recs, error := none },
           t0 ++ t1)
    else
      (Except.ok courses_response, t0)

/-- The course-list request the Aggregator issues first (spec step 1):
resource `courses` with query parameter `enrollment_state=active`. -/
def coursesReq (u tok : String) : HttpRequest :=
  builtRequest u tok "courses" "GET"
    (some (Json.obj [("enrollment_state", Json.str "active")])) none

/-- The per-course assignments request (spec step 3): resource
`courses/{course_id}/assignments` with query parameter
`include=submission`. -/
def assignmentsReq (u tok cid : String) : HttpRequest :=
  builtRequest u tok ("courses/" ++ cid ++ "/assignments") "GET"
    (some (Json.obj [("include", Json.arr [Json.str "submission"])])) none

/-- The course id as interpolated into the per-course endpoint. -/
def cidStr (c : Json) : String :=
  Json.pyStr ((c.lookup "id").getD Json.null)

/-- Spec-side qualification predicate, following the spec's words: the
assignment carries a `submission` sub-object AND that sub-object's
`missing` flag is true; an absent flag is treated as false. -/
def specQualifies (a : Json) : Bool :=
  match a.lookup "submission" with
  | some sub =>
    match sub.lookup "missing" with
    | some (Json.bool true) => true
    | _ => false
  | none => false

/-- Spec-side record, following the spec's words: one
MissingAssignmentRecord carrying the course's id/name and the
assignment's id/name/due date (nullable, absent becomes null)/points
possible. -/
def specRecord (course a : Json) : Json :=
  Json.obj [
    ("course_name", (course.lookup "name").getD Json.null),
    ("course_id", (course.lookup "id").getD Json.null),
    ("assignment_name", (a.lookup "name").getD Json.null),
    ("assignment_id", (a.lookup "id").getD Json.null),
    ("due_date", (a.lookup "due_at").getD Json.null),
    ("points_possible", (a.lookup "points_possible").getD Json.null)]

/-- Spec-side records contributed by one course (spec steps 4-6): a
failed per-course call contributes nothing; a successful one contributes
the filtered projection of its assignment list, in order. -/
def specCourseRecords (transport : HttpRequest → HttpResult)
    (u tok : String) (c : Json) : List Json :=
  match transport (assignmentsReq u tok (cidStr c)) with
  | HttpResult.err _ => []
  | HttpResult.ok (Json.arr l) =>
    (l.filter fun a => specQualifies a).map (specRecord c)
  | HttpResult.ok _ => []

/-- Well-formed course object per the spec's data model: an object
carrying `id` and `name`. -/
def wfCourse (c : Json) : Bool :=
  c.isObj && (c.lookup "id").isSome && (c.lookup "name").isSome

/-- Shape of the optional `submission` sub-object per the spec's data
model: absent, or an object whose optional `missing` flag is boolean. -/
def wfSubmissionShape (a : Json) : Bool :=
  match a.lookup "submission" with
  | none => true
  | some sub =>
    sub.isObj &&
      (match sub.lookup "missing" with
       | none => true
       | some (Json.bool _) => true
       | some _ => false)

/-- Well-formed assignment object per the spec's data model: an object
with a well-formed optional submission, carrying `name`, `id` and
`points_possible` at least when it qualifies as missing (`due_at` may be
absent). -/
def wfAssignment (a : Json) : Bool :=
  a.isObj && wfSubmissionShape a &&
    (!(specQualifies a) ||
      ((a.lookup "name").isSome && (a.lookup "id").isSome &&
        (a.lookup "points_possible").isSome))

theorem isObj_iff (j : Json) : j.isObj = true ↔ ∃ fs, j = Json.obj fs := by
  cases j <;> simp [Json.isObj]

/-- For the four supported verbs with `method = "GET"`:
`canvas_request` consults the transport once on the built request and
wraps the outcome. -/
theorem canvas_request_get (transport : HttpRequest → HttpResult)
    (u tok ep : String) (p d : Option Json) :
    canvas_request transport u tok ep "GET" p d =
      (Except.ok (envelopeOf (transport (builtRequest u tok ep "GET" p d))),
       [builtRequest u tok ep "GET" p d]) := by
  simp [canvas_request, builtRequest]

/-- Characterization of the per-assignment filter/projection on
well-formed data: the record is appended exactly when the spec-side
qualification predicate holds, and it is the spec-side record. -/
theorem processAssignment_wf (c a : Json) (hc : wfCourse c = true)
    (ha : wfAssignment a = true) :
    processAssignment c a =
      Except.ok (if specQualifies a then some (specRecord c a) else none) := by
  rw [wfCourse, Bool.and_eq_true, Bool.and_eq_true] at hc
  obtain ⟨⟨hcobj, hcid⟩, hcname⟩ := hc
  obtain ⟨cfs, rfl⟩ := (isObj_iff c).1 hcobj
  rw [wfAssignment, Bool.and_eq_true, Bool.and_eq_true] at ha
  obtain ⟨⟨haobj, hashape⟩, hafields⟩ := ha
  obtain ⟨fs, rfl⟩ := (isObj_iff _).1 haobj
  rw [processAssignment]
  simp only [Json.pyContains]
  rcases hsub : lookupFields fs "submission" with _ | sub
  · simp [specQualifies, Json.lookup, hsub]
  · rw [wfSubmissionShape] at hashape
    simp only [Json.lookup, hsub, Bool.and_eq_true] at hashape
    obtain ⟨hsobj, hmshape⟩ := hashape
    obtain ⟨gs, rfl⟩ := (isObj_iff _).1 hsobj
    simp only [Option.isSome_some, if_true, Json.getItem, hsub, Json.dictGet]
    rcases hmiss : lookupFields gs "missing" with _ | m
    · simp [specQualifies, Json.lookup, hsub, hmiss, Json.truthy]
    · rcases m with _ | b | n | s | xs | hs
      case null => simp [hmiss] at hmshape
      case num => simp [hmiss] at hmshape
      case str => simp [hmiss] at hmshape
      case arr => simp [hmiss] at hmshape
      case obj => simp [hmiss] at hmshape
      rcases b with _ | _
      · simp [specQualifies, Json.lookup, hsub, hmiss, Json.truthy]
      · have hq : specQualifies (Json.obj fs) = true := by
          simp [specQualifies, Json.lookup, hsub, hmiss]
        rw [hq] at hafields
        simp only [Bool.not_true, Bool.false_or, Bool.and_eq_true] at hafields
        obtain ⟨⟨haname, haid⟩, hapts⟩ := hafields
        obtain ⟨vn, hvn⟩ := Option.isSome_iff_exists.1 haname
        obtain ⟨vi, hvi⟩ := Option.isSome_iff_exists.1 haid
        obtain ⟨vp, hvp⟩ := Option.isSome_iff_exists.1 hapts
        obtain ⟨cn, hcn⟩ := Option.isSome_iff_exists.1 hcname
        obtain ⟨ci, hci⟩ := Option.isSome_iff_exists.1 hcid
        simp only [Json.lookup] at hvn hvi hvp hcn hci
        simp [hq, Json.truthy, Json.getItem, Json.dictGet, specRecord,
          Json.lookup, hvn, hvi, hvp, hcn, hci, hmiss]

/-- Characterization of one course's assignment loop on well-formed
data: it succeeds and produces exactly the spec-side filtered
projection, in assignment order. -/
theorem processAssignments_wf (c : Json) (l : List Json)
    (hc : wfCourse c = true) (ha : ∀ a ∈ l, wfAssignment a = true) :
    processAssignments c l =
      Except.ok ((l.filter fun a => specQualifies a).map (specRecord c)) := by
  induction l with
  | nil => rfl
  | cons a rest ih =>
    rw [processAssignments,
      processAssignment_wf c a hc (ha a (List.mem_cons_self a rest)),
      ih (fun x hx => ha x (List.mem_cons_of_mem a hx))]
    rcases hq : specQualifies a with _ | _ <;>
      simp [List.filter_cons, hq]

/-- Characterization of the per-course loop on well-formed data: it
succeeds, issues exactly one assignments request per course in course
order, and produces the concatenation of the spec-side per-course
records in course order. -/
theorem processCourses_wf (transport : HttpRequest → HttpResult)
    (u tok : String) (cs : List Json)
    (hc : ∀ c ∈ cs, wfCourse c = true)
    (hb : ∀ c ∈ cs, ∀ body,
      transport (assignmentsReq u tok (cidStr c)) = HttpResult.ok body →
      ∃ l, body = Json.arr l ∧ ∀ a ∈ l, wfAssignment a = true) :
    processCourses transport u tok cs =
      (Except.ok ((cs.map (specCourseRecords transport u tok)).flatten),
       cs.map fun c => assignmentsReq u tok (cidStr c)) := by
  induction cs with
  | nil => rfl
  | cons c rest ih =>
    have hcwf := hc c (List.mem_cons_self c rest)
    have hcwf' := hcwf
    rw [wfCourse, Bool.and_eq_true, Bool.and_eq_true] at hcwf'
    obtain ⟨⟨hcobj, hcid⟩, _⟩ := hcwf'
    obtain ⟨ci, hci⟩ := Option.isSome_iff_exists.1 hcid
    have hcidstr : cidStr c = Json.pyStr ci := by
      rw [cidStr, hci, Option.getD_some]
    have hreq : assignmentsReq u tok (cidStr c) =
        builtRequest u tok ("courses/" ++ Json.pyStr ci ++ "/assignments") "GET"
          (some (Json.obj [("include", Json.arr [Json.str "submission"])])) none := by
      rw [assignmentsReq, hcidstr]
    obtain ⟨cfs, rfl⟩ := (isObj_iff c).1 hcobj
    simp only [Json.lookup] at hci
    rw [processCourses]
    simp only [Json.getItem, hci, canvas_request_get, ← hreq]
    have ihr := ih (fun x hx => hc x (List.mem_cons_of_mem _ hx))
      (fun x hx => hb x (List.mem_cons_of_mem _ hx))
    rcases htr : transport (assignmentsReq u tok (cidStr (Json.obj cfs)))
        with body | msg
    · obtain ⟨l, rfl, hwf⟩ :=
        hb (Json.obj cfs) (List.mem_cons_self _ rest) body htr
      simp only [envelopeOf, Json.iterList,
        processAssignments_wf (Json.obj cfs) l hcwf hwf, ihr, if_true]
      simp [specCourseRecords, htr]
    · simp only [envelopeOf, ihr]
      simp [specCourseRecords, htr]

/-- Characterization of `get_missing_assignments` when the course-list
call succeeds with a well-formed course array: it returns a success
Envelope holding the ordered spec-side records, and issues the course
request followed by one assignments request per course, in order. -/
theorem get_missing_assignments_wf (transport : HttpRequest → HttpResult)
    (u tok : String) (cs : List Json)
    (h0 : transport (coursesReq u tok) = HttpResult.ok (Json.arr cs))
    (hc : ∀ c ∈ cs, wfCourse c = true)
    (hb : ∀ c ∈ cs, ∀ body,
      transport (assignmentsReq u tok (cidStr c)) = HttpResult.ok body →
      ∃ l, body = Json.arr l ∧ ∀ a ∈ l, wfAssignment a = true) :
    get_missing_assignments transport u tok =
      (Except.ok ⟨true,
         Json.arr ((cs.map (specCourseRecords transport u tok)).flatten),
         none⟩,
       coursesReq u tok :: cs.map fun c => assignmentsReq u tok (cidStr c)) := by
  rw [get_missing_assignments]
  have hcall : canvas_request transport u tok "courses" "GET"
      (some (Json.obj [("enrollment_state", Json.str "active")])) none =
      (Except.ok (envelopeOf (transport (coursesReq u tok))),
       [coursesReq u tok]) := by
    rw [canvas_request_get]; rfl
  rw [hcall, h0]
  simp only [envelopeOf, Json.iterList,
    processCourses_wf transport u tok cs hc hb]
  simp

/-- Characterization of `get_missing_assignments` when the course-list
call fails: the failure Envelope is returned unchanged and no further
request is issued. -/
theorem get_missing_assignments_fail (transport : HttpRequest → HttpResult)
    (u tok E : String)
    (h0 : transport (coursesReq u tok) = HttpResult.err E) :
    get_missing_assignments transport u tok =
      (Except.ok ⟨false, Json.null, some E⟩,
       [coursesReq u tok]) := by
  rw [get_missing_assignments]
  have hcall : canvas_request transport u tok "courses" "GET"
      (some (Json.obj [("enrollment_state", Json.str "active")])) none =
      (Except.ok (envelopeOf (transport (coursesReq u tok))),
       [coursesReq u tok]) := by
    rw [canvas_request_get]; rfl
  rw [hcall, h0]
  simp [envelopeOf]

/-- Whether a `Json` value is an array (a Python list). -/
def Json.isArr : Json → Bool
  | Json.arr _ => true
  | _ => false

/-- For any of the four supported verbs, `canvas_request` consults the
transport exactly once on the built request and wraps the outcome in an
Envelope. -/
theorem canvas_request_valid (transport : HttpRequest → HttpResult)
    (u tok ep m : String) (p d : Option Json)
    (hm : m = "GET" ∨ m = "POST" ∨ m = "PUT" ∨ m = "DELETE") :
    canvas_request transport u tok ep m p d =
      (Except.ok (envelopeOf (transport (builtRequest u tok ep m p d))),
       [builtRequest u tok ep m p d]) := by
  rcases hm with rfl | rfl | rfl | rfl <;> simp [canvas_request, builtRequest]

/-- Every run of `canvas_request` either wraps one transport outcome or
raises the unbound-local error. -/
theorem canvas_request_shape (transport : HttpRequest → HttpResult)
    (u tok ep m : String) (p d : Option Json) :
    (∃ req, canvas_request transport u tok ep m p d =
      (Except.ok (envelopeOf (transport req)), [req])) ∨
    canvas_request transport u tok ep m p d =
      (Except.error (PyErr.nameError "response"), []) := by
  rw [canvas_request]
  split
  · exact Or.inl ⟨_, rfl⟩
  · split
    · exact Or.inl ⟨_, rfl⟩
    · split
      · exact Or.inl ⟨_, rfl⟩
      · split
        · exact Or.inl ⟨_, rfl⟩
        · exact Or.inr rfl

/-- Agreement of two transports on all GET requests propagates through
the per-course loop. -/
theorem processCourses_congr (t1 t2 : HttpRequest → HttpResult)
    (u tok : String) (cs : List Json)
    (hagree : ∀ req, req.method = "GET" → t1 req = t2 req) :
    processCourses t1 u tok cs = processCourses t2 u tok cs := by
  induction cs with
  | nil => rfl
  | cons c rest ih =>
    rw [processCourses, processCourses]
    rcases hci : Json.getItem c "id" with e | cid
    · rfl
    · simp only []
      rw [canvas_request_get t1, canvas_request_get t2,
        hagree (builtRequest u tok ("courses/" ++ Json.pyStr cid ++ "/assignments")
          "GET" (some (Json.obj [("include", Json.arr [Json.str "submission"])])) none)
          rfl, ih]

/-- Transport that answers every request with a success body `null`. -/
def okTransport : HttpRequest → HttpResult := fun _ => HttpResult.ok Json.null

/-- Transport that fails every request. -/
def errTransport : HttpRequest → HttpResult := fun _ => HttpResult.err "boom"

/-- Transport whose course list is empty. -/
def emptyTransport : HttpRequest → HttpResult := fun _ =>
  HttpResult.ok (Json.arr [])

/-- C1: For every assignment in a successful per-course response (a
well-formed assignment list per the spec's data model), the Aggregator's
per-assignment loop includes the assignment in the result if and only if
it carries a `submission` sub-object whose `missing` flag is true — an
absent flag counts as false, not as an error: the produced records are
exactly the spec-side filter `specQualifies` mapped through the
spec-side record `specRecord`, in order. -/
theorem C1_missing_filter (c : Json) (l : List Json)
    (hc : wfCourse c = true) (ha : ∀ a ∈ l, wfAssignment a = true) :
    processAssignments c l =
      Except.ok ((l.filter fun a => specQualifies a).map (specRecord c)) :=
  processAssignments_wf c l hc ha

/-- Course used in the P4 scenario witness. -/
def courseP4 : Json := Json.obj [("id", Json.num 7), ("name", Json.str "Course7")]

/-- Assignments of the P4 scenario: missing=true, missing=false, and no
submission, completed with the `name`/`points_possible` fields the
spec's data model gives every assignment. -/
def assignP4 : List Json := [
  Json.obj [("id", Json.num 1), ("name", Json.str "A1"),
    ("points_possible", Json.num 5),
    ("submission", Json.obj [("missing", Json.bool true)])],
  Json.obj [("id", Json.num 2), ("name", Json.str "A2"),
    ("points_possible", Json.num 6),
    ("submission", Json.obj [("missing", Json.bool false)])],
  Json.obj [("id", Json.num 3), ("name", Json.str "A3"),
    ("points_possible", Json.num 7)]]

theorem C1_missing_filter_witness :
    processAssignments courseP4 assignP4 =
      Except.ok [Json.obj [
        ("course_name", Json.str "Course7"), ("course_id", Json.num 7),
        ("assignment_name", Json.str "A1"), ("assignment_id", Json.num 1),
        ("due_date", Json.null), ("points_possible", Json.num 5)]] :=
  (C1_missing_filter courseP4 assignP4 rfl (by decide)).trans rfl

/-- C3: if the initial course-list Gateway call fails with error E, the
Aggregator returns that failure Envelope unchanged and its request trace
is exactly the course-list request: zero per-course assignment calls are
issued. -/
theorem C3_fail_fast (transport : HttpRequest → HttpResult)
    (u tok E : String)
    (h0 : transport (coursesReq u tok) = HttpResult.err E) :
    get_missing_assignments transport u tok =
      (Except.ok ⟨false, Json.null, some E⟩, [coursesReq u tok]) :=
  get_missing_assignments_fail transport u tok E h0

theorem C3_fail_fast_witness :
    get_missing_assignments errTransport "https://u" "tok" =
      (Except.ok ⟨false, Json.null, some "boom"⟩,
       [coursesReq "https://u" "tok"]) :=
  C3_fail_fast errTransport "https://u" "tok" "boom" rfl

/-- C5: every Envelope returned by a Gateway call satisfies exclusivity:
exactly one of (success=true and error=null) or (success=false and
data=null) holds. -/
theorem C5_envelope_exclusivity (transport : HttpRequest → HttpResult)
    (u tok ep m : String) (p d : Option Json) (r : CanvasResponse)
    (t : List HttpRequest)
    (h : canvas_request transport u tok ep m p d = (Except.ok r, t)) :
    (r.success = true ∧ r.error = none ∧
      ¬(r.success = false ∧ r.data = Json.null)) ∨
    (r.success = false ∧ r.data = Json.null ∧
      ¬(r.success = true ∧ r.error = none)) := by
  rcases canvas_request_shape transport u tok ep m p d with ⟨req, hs⟩ | hs
  · rw [hs] at h
    injection h with h1 h2
    injection h1 with h1
    subst h1
    cases transport req <;> simp [envelopeOf]
  · rw [hs] at h
    injection h with h1 h2
    injection h1

theorem C5_envelope_exclusivity_witness :
    ((CanvasResponse.success ⟨true, Json.null, none⟩ = true ∧
      CanvasResponse.error ⟨true, Json.null, none⟩ = none ∧
      ¬(CanvasResponse.success ⟨true, Json.null, none⟩ = false ∧
        CanvasResponse.data ⟨true, Json.null, none⟩ = Json.null)) ∨
     (CanvasResponse.success ⟨true, Json.null, none⟩ = false ∧
      CanvasResponse.data ⟨true, Json.null, none⟩ = Json.null ∧
      ¬(CanvasResponse.success ⟨true, Json.null, none⟩ = true ∧
        CanvasResponse.error ⟨true, Json.null, none⟩ = none))) :=
  C5_envelope_exclusivity okTransport "https://u" "tok" "courses" "GET"
    none none ⟨true, Json.null, none⟩
    [⟨"https://u/api/v1/courses", "Bearer tok", "GET", none, none⟩] rfl

/-- C6: any transport-level failure is caught inside the Gateway and
converted to the failure Envelope with the error's description; the call
returns normally (no raised error crosses the Gateway boundary) and the
single issued request is the built one. -/
theorem C6_transport_error_conversion (transport : HttpRequest → HttpResult)
    (u tok ep m msg : String) (p d : Option Json)
    (hm : m = "GET" ∨ m = "POST" ∨ m = "PUT" ∨ m = "DELETE")
    (htr : transport (builtRequest u tok ep m p d) = HttpResult.err msg) :
    canvas_request transport u tok ep m p d =
      (Except.ok ⟨false, Json.null, some msg⟩,
       [builtRequest u tok ep m p d]) := by
  rw [canvas_request_valid transport u tok ep m p d hm, htr]
  rfl

theorem C6_transport_error_conversion_witness :
    canvas_request errTransport "https://u" "tok" "courses" "GET" none none =
      (Except.ok ⟨false, Json.null, some "boom"⟩,
       [builtRequest "https://u" "tok" "courses" "GET" none none]) :=
  C6_transport_error_conversion errTransport "https://u" "tok" "courses"
    "GET" "boom" none none (Or.inl rfl) rfl

/-- C9: a method string outside GET/POST/PUT/DELETE issues no HTTP
request and yields no Envelope: the unbound `response` variable raises a
NameError that the transport-error handler does not catch. -/
theorem C9_unknown_method (transport : HttpRequest → HttpResult)
    (u tok ep m : String) (p d : Option Json)
    (hm : ¬(m = "GET" ∨ m = "POST" ∨ m = "PUT" ∨ m = "DELETE")) :
    canvas_request transport u tok ep m p d =
      (Except.error (PyErr.nameError "response"), []) := by
  push_neg at hm
  obtain ⟨h1, h2, h3, h4⟩ := hm
  simp [canvas_request, h1, h2, h3, h4]

theorem C9_unknown_method_witness :
    canvas_request okTransport "https://u" "tok" "courses" "PATCH" none none =
      (Except.error (PyErr.nameError "response"), []) :=
  C9_unknown_method okTransport "https://u" "tok" "courses" "PATCH"
    none none (by decide)

/-- Transport for the C2 counterexample: the course list succeeds with
one course, and the per-course call succeeds with a single qualifying
assignment that lacks `points_possible`. -/
def noPointsTransport : HttpRequest → HttpResult := fun req =>
  if req.url = "https://u/api/v1/courses" then
    HttpResult.ok (Json.arr [Json.obj [("id", Json.num 1), ("name", Json.str "X")]])
  else
    HttpResult.ok (Json.arr [Json.obj [("id", Json.num 2), ("name", Json.str "A"),
      ("submission", Json.obj [("missing", Json.bool true)])]])

/-- C2 counterexample: an upstream behavior whose course-list call
succeeds but where a qualifying assignment lacks `points_possible`; the
Aggregator does not return an Envelope at all — the unguarded
`assignment['points_possible']` access raises a KeyError. -/
theorem C2_counterexample :
    noPointsTransport (coursesReq "https://u" "tok") =
      HttpResult.ok (Json.arr [Json.obj [("id", Json.num 1), ("name", Json.str "X")]]) ∧
    (get_missing_assignments noPointsTransport "https://u" "tok").1 =
      Except.error (PyErr.keyError "points_possible") :=
  ⟨rfl, rfl⟩

/-- C2 (amended): once the course-list call succeeds with a well-formed
course array and every successful per-course payload is a well-formed
assignment array (in particular, every qualifying assignment carries
`points_possible`), the Aggregator returns a success Envelope whose data
is a (possibly empty) list, with no error and no raised exception; a
qualifying assignment lacking `points_possible` instead raises a
KeyError (see the counterexample). -/
theorem C2_success_envelope (transport : HttpRequest → HttpResult)
    (u tok : String) (cs : List Json)
    (h0 : transport (coursesReq u tok) = HttpResult.ok (Json.arr cs))
    (hc : ∀ c ∈ cs, wfCourse c = true)
    (hb : ∀ c ∈ cs, ∀ body,
      transport (assignmentsReq u tok (cidStr c)) = HttpResult.ok body →
      ∃ l, body = Json.arr l ∧ ∀ a ∈ l, wfAssignment a = true) :
    ((get_missing_assignments transport u tok).1.toOption.map
      fun r => (r.success, r.error, r.data.isArr)) = some (true, none, true) := by
  rw [get_missing_assignments_wf transport u tok cs h0 hc hb]
  rfl

theorem C2_success_envelope_witness :
    ((get_missing_assignments emptyTransport "https://u" "tok").1.toOption.map
      fun r => (r.success, r.error, r.data.isArr)) = some (true, none, true) :=
  C2_success_envelope emptyTransport "https://u" "tok" [] rfl
    (by simp) (by simp)

/-- C4: a course whose per-course call fails contributes zero records
and the remaining courses are still processed: for courses [A, B, C]
with B's assignments call failing, the Aggregator returns a success
Envelope whose data is exactly A's records followed by C's records. -/
theorem C4_partial_tolerance (transport : HttpRequest → HttpResult)
    (u tok e : String) (A B C : Json) (la lc : List Json)
    (h0 : transport (coursesReq u tok) = HttpResult.ok (Json.arr [A, B, C]))
    (hA : wfCourse A = true) (hB : wfCourse B = true) (hC : wfCourse C = true)
    (hra : transport (assignmentsReq u tok (cidStr A)) = HttpResult.ok (Json.arr la))
    (hla : ∀ a ∈ la, wfAssignment a = true)
    (hrb : transport (assignmentsReq u tok (cidStr B)) = HttpResult.err e)
    (hrc : transport (assignmentsReq u tok (cidStr C)) = HttpResult.ok (Json.arr lc))
    (hlc : ∀ a ∈ lc, wfAssignment a = true) :
    (get_missing_assignments transport u tok).1 =
      Except.ok ⟨true, Json.arr
        ((la.filter fun a => specQualifies a).map (specRecord A) ++
         (lc.filter fun a => specQualifies a).map (specRecord C)), none⟩ := by
  have hc : ∀ c ∈ [A, B, C], wfCourse c = true := by
    intro c hmem
    simp only [List.mem_cons, List.not_mem_nil, or_false] at hmem
    rcases hmem with rfl | rfl | rfl
    · exact hA
    · exact hB
    · exact hC
  have hb : ∀ c ∈ [A, B, C], ∀ body,
      transport (assignmentsReq u tok (cidStr c)) = HttpResult.ok body →
      ∃ l, body = Json.arr l ∧ ∀ a ∈ l, wfAssignment a = true := by
    intro c hmem body hbody
    simp only [List.mem_cons, List.not_mem_nil, or_false] at hmem
    rcases hmem with rfl | rfl | rfl
    · rw [hra] at hbody
      injection hbody with h
      exact ⟨la, h.symm, hla⟩
    · rw [hrb] at hbody
      injection hbody
    · rw [hrc] at hbody
      injection hbody with h
      exact ⟨lc, h.symm, hlc⟩
  rw [get_missing_assignments_wf transport u tok [A, B, C] h0 hc hb]
  simp [specCourseRecords, hra, hrb, hrc]

/-- First course of the C4 witness scenario. -/
def courseA4 : Json := Json.obj [("id", Json.num 1), ("name", Json.str "CourseA")]

/-- Second course of the C4 witness scenario (its call fails). -/
def courseB4 : Json := Json.obj [("id", Json.num 2), ("name", Json.str "CourseB")]

/-- Third course of the C4 witness scenario. -/
def courseC4 : Json := Json.obj [("id", Json.num 3), ("name", Json.str "CourseC")]

/-- Missing assignment of course A in the C4 witness scenario. -/
def asgA4 : Json := Json.obj [("id", Json.num 11), ("name", Json.str "HA"),
  ("points_possible", Json.num 3),
  ("submission", Json.obj [("missing", Json.bool true)])]

/-- Missing assignment of course C in the C4 witness scenario. -/
def asgC4 : Json := Json.obj [("id", Json.num 31), ("name", Json.str "HC"),
  ("points_possible", Json.num 4),
  ("submission", Json.obj [("missing", Json.bool true)])]

/-- Transport of the C4 witness scenario: three courses, B's per-course
call fails. -/
def abcTransport : HttpRequest → HttpResult := fun req =>
  if req.url = "https://u/api/v1/courses" then
    HttpResult.ok (Json.arr [courseA4, courseB4, courseC4])
  else if req.url = "https://u/api/v1/courses/1/assignments" then
    HttpResult.ok (Json.arr [asgA4])
  else if req.url = "https://u/api/v1/courses/2/assignments" then
    HttpResult.err "course B down"
  else
    HttpResult.ok (Json.arr [asgC4])

theorem C4_partial_tolerance_witness :
    (get_missing_assignments abcTransport "https://u" "tok").1 =
      Except.ok ⟨true, Json.arr [
        Json.obj [("course_name", Json.str "CourseA"), ("course_id", Json.num 1),
          ("assignment_name", Json.str "HA"), ("assignment_id", Json.num 11),
          ("due_date", Json.null), ("points_possible", Json.num 3)],
        Json.obj [("course_name", Json.str "CourseC"), ("course_id", Json.num 3),
          ("assignment_name", Json.str "HC"), ("assignment_id", Json.num 31),
          ("due_date", Json.null), ("points_possible", Json.num 4)]], none⟩ :=
  (C4_partial_tolerance abcTransport "https://u" "tok" "course B down"
    courseA4 courseB4 courseC4 [asgA4] [asgC4]
    rfl rfl rfl rfl rfl (by decide) rfl rfl (by decide)).trans rfl

/-- C7: on a successful aggregation the data list contains exactly one
record per qualifying assignment, ordered by course order from the
course-list response and then by assignment order within each course
(`specCourseRecords` concatenated in course order); each record carries
the course id/name and the assignment id/name/due date/points, with the
due date carried through as-is (absent becomes null) — see `specRecord`. -/
theorem C7_record_ordering (transport : HttpRequest → HttpResult)
    (u tok : String) (cs : List Json)
    (h0 : transport (coursesReq u tok) = HttpResult.ok (Json.arr cs))
    (hc : ∀ c ∈ cs, wfCourse c = true)
    (hb : ∀ c ∈ cs, ∀ body,
      transport (assignmentsReq u tok (cidStr c)) = HttpResult.ok body →
      ∃ l, body = Json.arr l ∧ ∀ a ∈ l, wfAssignment a = true) :
    (get_missing_assignments transport u tok).1 =
      Except.ok ⟨true,
        Json.arr ((cs.map (specCourseRecords transport u tok)).flatten),
        none⟩ := by
  rw [get_missing_assignments_wf transport u tok cs h0 hc hb]

/-- Course of the specification's worked scenario. -/
def courseMath : Json :=
  Json.obj [("id", Json.num 10), ("name", Json.str "Math")]

/-- Assignment of the specification's worked scenario. -/
def asgMath : Json := Json.obj [
  ("id", Json.num 100), ("name", Json.str "HW1"),
  ("due_at", Json.str "2024-01-01"), ("points_possible", Json.num 10),
  ("submission", Json.obj [("missing", Json.bool true)])]

/-- Transport of the specification's worked scenario. -/
def mathTransport : HttpRequest → HttpResult := fun req =>
  if req.url = "https://u/api/v1/courses" then
    HttpResult.ok (Json.arr [courseMath])
  else if req.url = "https://u/api/v1/courses/10/assignments" then
    HttpResult.ok (Json.arr [asgMath])
  else HttpResult.err "unexpected"

theorem C7_record_ordering_witness :
    (get_missing_assignments mathTransport "https://u" "tok").1 =
      Except.ok ⟨true, Json.arr [Json.obj [
        ("course_name", Json.str "Math"), ("course_id", Json.num 10),
        ("assignment_name", Json.str "HW1"), ("assignment_id", Json.num 100),
        ("due_date", Json.str "2024-01-01"),
        ("points_possible", Json.num 10)]], none⟩ :=
  (C7_record_ordering mathTransport "https://u" "tok" [courseMath] rfl
    (by decide)
    (by
      intro c hmem body hbody
      simp only [List.mem_cons, List.not_mem_nil, or_false] at hmem
      subst hmem
      have hq : mathTransport
          (assignmentsReq "https://u" "tok" (cidStr courseMath)) =
          HttpResult.ok (Json.arr [asgMath]) := rfl
      rw [hq] at hbody
      injection hbody with h
      exact ⟨[asgMath], h.symm, by decide⟩)).trans rfl

/-- Query parameters used in the C8 counterexample. -/
def cxParams : Json := Json.obj [("enrollment_state", Json.str "active")]

/-- Request body used in the C8 counterexample. -/
def cxBody : Json := Json.obj [("k", Json.str "v")]

/-- C8 counterexample: for the verb POST with query parameters given,
the single issued request carries no query parameters (the code passes
`params=` only for GET), so the request is not issued "with the given
query parameters" as the claim states. -/
theorem C8_counterexample :
    (canvas_request okTransport "https://u" "tok" "courses" "POST"
        (some cxParams) (some cxBody)).2 =
      [⟨"https://u/api/v1/courses", "Bearer tok", "POST", none, some cxBody⟩] ∧
    some cxParams ≠ (none : Option Json) :=
  ⟨rfl, by simp⟩

/-- C8 (amended): for every verb in GET/POST/PUT/DELETE the Gateway
issues exactly one HTTP request, to the URL joining the base address,
the fixed `api/v1` segment and the resource path, with the
`Bearer <token>` authorization header and the given verb; the given
query parameters are attached only for GET and the given body only for
POST/PUT (they are dropped for the other verbs). -/
theorem C8_request_construction (transport : HttpRequest → HttpResult)
    (u tok ep m : String) (p d : Option Json)
    (hm : m = "GET" ∨ m = "POST" ∨ m = "PUT" ∨ m = "DELETE") :
    canvas_request transport u tok ep m p d =
      (Except.ok (envelopeOf (transport (builtRequest u tok ep m p d))),
       [builtRequest u tok ep m p d]) ∧
    (builtRequest u tok ep m p d).url = u ++ "/api/v1/" ++ ep ∧
    (builtRequest u tok ep m p d).authHeader = "Bearer " ++ tok ∧
    (builtRequest u tok ep m p d).method = m ∧
    (builtRequest u tok ep m p d).params = (if m = "GET" then p else none) ∧
    (builtRequest u tok ep m p d).body =
      (if m = "POST" ∨ m = "PUT" then d else none) :=
  ⟨canvas_request_valid transport u tok ep m p d hm, rfl, rfl, rfl, rfl, rfl⟩

theorem C8_request_construction_witness :
    canvas_request okTransport "https://u" "tok" "courses" "GET"
        (some cxParams) none =
      (Except.ok ⟨true, Json.null, none⟩,
       [⟨"https://u/api/v1/courses", "Bearer tok", "GET",
         some cxParams, none⟩]) :=
  ((C8_request_construction okTransport "https://u" "tok" "courses" "GET"
    (some cxParams) none (Or.inl rfl)).1).trans rfl

/-- C10: the Aggregator is deterministic: with the Gateway modelled as a
function from request to outcome, any two transports that agree on all
GET requests (in particular, two runs against identical upstream
responses) produce identical results, request traces included. -/
theorem C10_determinism (t1 t2 : HttpRequest → HttpResult) (u tok : String)
    (hagree : ∀ req, req.method = "GET" → t1 req = t2 req) :
    get_missing_assignments t1 u tok = get_missing_assignments t2 u tok := by
  have hpc : processCourses t1 u tok = processCourses t2 u tok :=
    funext fun cs => processCourses_congr t1 t2 u tok cs hagree
  rw [get_missing_assignments, get_missing_assignments,
    canvas_request_get t1, canvas_request_get t2,
    hagree (builtRequest u tok "courses" "GET"
      (some (Json.obj [("enrollment_state", Json.str "active")])) none) rfl,
    hpc]

/-- First transport of the C10 witness. -/
def detTransportA : HttpRequest → HttpResult := fun _ => HttpResult.err "down"

/-- Second transport of the C10 witness: differs from the first on
non-GET requests only. -/
def detTransportB : HttpRequest → HttpResult := fun req =>
  if req.method = "GET" then HttpResult.err "down" else HttpResult.ok Json.null

theorem C10_determinism_witness :
    get_missing_assignments detTransportA "https://u" "tok" =
      get_missing_assignments detTransportB "https://u" "tok" :=
  C10_determinism detTransportA detTransportB "https://u" "tok"
    (fun req h => by simp [detTransportA, detTransportB, h])
